import Mathlib

/-!
Verification of the customer health scoring logic of the
`customer_health_project` repository.

Scores are embedded as rationals (`ℚ`): the JavaScript/Python code works on
ordinary decimal numbers well inside the exactly-representable range, so exact
rational arithmetic is a faithful model of every comparison and weighted sum
that appears in the claims.

The repository ships the React frontend and the documentation; the FastAPI
backend (the five factor calculators and the aggregator in
`backend/domain/`) is not among the sources.  Frontend functions below are
translated line by line from `frontend/src/utils/healthScore.js` and the
components; the backend scoring pipeline is modelled from the spec, each such
definition carrying a doc comment that says so.
-/

namespace CustomerHealth

/-- The three health status values used across backend and frontend. -/
inductive Status where
  | healthy
  | at_risk
  | critical
deriving DecidableEq, Repr

/-- Trend values returned by `calculateTrendDirection`. -/
inductive Trend where
  | up
  | down
  | stable
deriving DecidableEq, Repr

/-- From `frontend/src/utils/healthScore.js` lines 1-5: score-based color. -/
def getHealthScoreColor (score : ℚ) : String :=
  if score ≥ 75 then "#10B981"
  else if score ≥ 60 then "#F59E0B"
  else "#EF4444"

/-- From `frontend/src/utils/healthScore.js` lines 7-18: status-based color,
with a default branch for any other string. -/
def getHealthStatusColor (status : String) : String :=
  if status = "healthy" then "#10B981"
  else if status = "at_risk" then "#F59E0B"
  else if status = "critical" then "#EF4444"
  else "#6B7280"

/-- From `frontend/src/utils/healthScore.js` lines 20-31: status label, with a
default branch for any other string. -/
def formatHealthStatus (status : String) : String :=
  if status = "healthy" then "Healthy"
  else if status = "at_risk" then "At Risk"
  else if status = "critical" then "Critical"
  else "Unknown"

/-- From `frontend/src/utils/healthScore.js` lines 33-37. -/
def calculateTrendDirection (currentScore previousScore : ℚ) : Trend :=
  let difference := currentScore - previousScore
  if |difference| < 2 then Trend.stable
  else if difference > 0 then Trend.up
  else Trend.down

/-- From `HealthFactorCard.jsx` lines 8-12 and `CustomerHealthDetail.jsx`
(the same helper is repeated verbatim in both components). -/
def getHealthStatusClass (score : ℚ) : String :=
  if score ≥ 80 then "healthy"
  else if score ≥ 60 then "at-risk"
  else "critical"

/-- Modelled from the spec: §4.6 status classification of the backend
aggregator (`backend/domain/calculators.py` is absent from the sources) —
"healthy if overall_score ≥ 75, at_risk if 50–74, else critical", matching the
business rules in the architecture document. -/
def classifyStatus (s : ℚ) : Status :=
  if s ≥ 75 then Status.healthy
  else if s ≥ 50 then Status.at_risk
  else Status.critical

/-- The backend name of each status, as serialized into the REST payloads. -/
def statusName : Status → String
  | Status.healthy => "healthy"
  | Status.at_risk => "at_risk"
  | Status.critical => "critical"

/-- Category of a hex color produced by the two color helpers. -/
def colorCategory (c : String) : Option Status :=
  if c = "#10B981" then some Status.healthy
  else if c = "#F59E0B" then some Status.at_risk
  else if c = "#EF4444" then some Status.critical
  else none

/-- Category of a CSS class produced by `getHealthStatusClass`. -/
def classCategory (c : String) : Option Status :=
  if c = "healthy" then some Status.healthy
  else if c = "at-risk" then some Status.at_risk
  else if c = "critical" then some Status.critical
  else none

/-- API Usage weight, from `HEALTH_SCORE_GUIDE.md` (Score Calculation): 0.25. -/
def wApiUsage : ℚ := 25/100

/-- Login Frequency weight, from `HEALTH_SCORE_GUIDE.md`: 0.20. -/
def wLoginFrequency : ℚ := 20/100

/-- Payment Timeliness weight, from `HEALTH_SCORE_GUIDE.md`: 0.20. -/
def wPaymentTimeliness : ℚ := 20/100

/-- Feature Adoption weight, from `HEALTH_SCORE_GUIDE.md`: 0.20. -/
def wFeatureAdoption : ℚ := 20/100

/-- Support Tickets weight, from `HEALTH_SCORE_GUIDE.md`: 0.15. -/
def wSupportTickets : ℚ := 15/100

/-- The five per-factor scores entering the aggregation. -/
structure FactorScores where
  api_usage : ℚ
  login_frequency : ℚ
  payment_timeliness : ℚ
  feature_adoption : ℚ
  support_tickets : ℚ
deriving DecidableEq, Repr

/-- Modelled from the spec: §4.6 aggregation contract (the backend
`calculators.py` is absent from the sources) — `Σ(score_i × weight_i)` with
the weights documented in `HEALTH_SCORE_GUIDE.md`. -/
def weightedSum (f : FactorScores) : ℚ :=
  f.api_usage * wApiUsage + f.login_frequency * wLoginFrequency +
    f.payment_timeliness * wPaymentTimeliness +
    f.feature_adoption * wFeatureAdoption +
    f.support_tickets * wSupportTickets

/-- Rounding to one decimal place, as in the aggregation contract. -/
def round1 (x : ℚ) : ℚ := (round (10 * x) : ℚ) / 10

/-- Modelled from the spec: §4.6 — the overall score is the weighted sum of
the factor scores, rounded to one decimal. -/
def overallScore (f : FactorScores) : ℚ := round1 (weightedSum f)

/-- Customer segments, from the data model. -/
inductive Segment where
  | startup
  | smb
  | enterprise
deriving DecidableEq, Repr

/-- Payment event statuses, from §4.3 and the frontend payment form. -/
inductive PaymentStatus where
  | paid_on_time
  | paid_late
  | overdue
  | failed
deriving DecidableEq, Repr

/-- Payload of a `payment` event: status plus lateness duration (§4.3). -/
structure PaymentEvent where
  status : PaymentStatus
  days_late : ℕ
deriving DecidableEq, Repr

/-- Payload of a `support_ticket` event: priority, resolution status and
resolution time (§4.5, §6). -/
structure SupportTicket where
  priority : String
  status : String
  resolution_hours : ℕ
deriving DecidableEq, Repr

/-- A typed customer event with the payload fields the calculators consume. -/
inductive Event where
  | api_call : Event
  | login : Event
  | payment : PaymentEvent → Event
  | feature_use : String → Event
  | support_ticket : SupportTicket → Event
deriving DecidableEq, Repr

/-- Modelled from the spec: §4.1 segment baselines — startup 200, smb 500,
enterprise 1000 expected API calls. -/
def expectedCalls : Segment → ℕ
  | Segment.startup => 200
  | Segment.smb => 500
  | Segment.enterprise => 1000

/-- Modelled from the spec: §4.1 API Usage Factor (the backend
`api_usage_factor.py` is absent from the sources) — ratio =
actual/expected clamped to `[0, 1.5]`, score = `min 100 (ratio × 100)`;
zero events → score 0. -/
def apiUsageScore (seg : Segment) (actual_calls : ℕ) : ℚ :=
  if actual_calls = 0 then 0
  else min 100 (min ((actual_calls : ℚ) / (expectedCalls seg : ℚ)) (3/2) * 100)

/-- Modelled from the spec: §4.2 Login Frequency Factor (the backend
`login_frequency_factor.py` is absent from the sources) — sustained one
login per week over the ≈4-week window scores 100; no logins → 0. -/
def loginFrequencyScore (login_count : ℕ) : ℚ :=
  if login_count = 0 then 0
  else min 100 ((login_count : ℚ) / 4 * 100)

/-- Modelled from the spec: §4.3 penalty per late/failed payment event,
scaled by the lateness duration. -/
def paymentPenalty (e : PaymentEvent) : ℚ :=
  match e.status with
  | PaymentStatus.paid_on_time => 0
  | PaymentStatus.paid_late => 10 + e.days_late
  | PaymentStatus.overdue => 20 + e.days_late
  | PaymentStatus.failed => 30

/-- Modelled from the spec: §4.3 Payment Timeliness Factor (the backend
`payment_timeliness_factor.py` is absent from the sources) — score =
100 − penalties, clamped at 0; no events in window → neutral-high 100;
any `failed` payment caps the score at 50. -/
def paymentTimelinessScore (payments : List PaymentEvent) : ℚ :=
  if payments.isEmpty then 100
  else
    let base := max 0 (100 - (payments.map paymentPenalty).sum)
    if payments.any (fun e => e.status = PaymentStatus.failed) then min base 50
    else base

/-- Total number of platform features: the eight offered in the frontend
feature dropdown. -/
def totalFeatures : ℕ := 8

/-- Modelled from the spec: §4.4 Feature Adoption Factor (the backend
`feature_adoption_factor.py` is absent from the sources) — score =
(distinct features used / total features) × 100, clamped at 100;
zero events → 0. -/
def featureAdoptionScore (features : List String) : ℚ :=
  min 100 (((features.dedup.length : ℚ) / (totalFeatures : ℚ)) * 100)

/-- Modelled from the spec: §4.5 penalty per ticket — unresolved tickets and
high/critical priorities are penalized, slow resolutions too; resolved
low-priority tickets handled quickly incur no penalty. -/
def ticketPenalty (t : SupportTicket) : ℚ :=
  (if t.status = "resolved" ∨ t.status = "closed" then 0 else 15) +
    (if t.priority = "high" ∨ t.priority = "critical" then 10 else 0) +
    (if 48 < t.resolution_hours then 5 else 0)

/-- Modelled from the spec: §4.5 Support Tickets Factor (the backend
`support_tickets_factor.py` is absent from the sources) — score starts
at 100 and is reduced per problematic ticket; zero tickets → 100. -/
def supportTicketsScore (tickets : List SupportTicket) : ℚ :=
  max 0 (100 - (tickets.map ticketPenalty).sum)

/-- Number of `api_call` events in the window. -/
def apiCallCount (events : List Event) : ℕ :=
  (events.filter fun e => match e with
    | Event.api_call => true
    | _ => false).length

/-- Number of `login` events in the window. -/
def loginCount (events : List Event) : ℕ :=
  (events.filter fun e => match e with
    | Event.login => true
    | _ => false).length

/-- The `payment` payloads in the window. -/
def paymentsOf (events : List Event) : List PaymentEvent :=
  events.filterMap fun e => match e with
    | Event.payment p => some p
    | _ => none

/-- The feature names of the `feature_use` events in the window. -/
def featuresOf (events : List Event) : List String :=
  events.filterMap fun e => match e with
    | Event.feature_use f => some f
    | _ => none

/-- The `support_ticket` payloads in the window. -/
def ticketsOf (events : List Event) : List SupportTicket :=
  events.filterMap fun e => match e with
    | Event.support_ticket t => some t
    | _ => none

/-- A computed health score: overall score, status and factor breakdown. -/
structure HealthScore where
  overall_score : ℚ
  status : Status
  factors : FactorScores
deriving DecidableEq, Repr

/-- Modelled from the spec: §2 components 2–3 — each health check recomputes
the five factor scores from the customer's events in the window. -/
def computeFactors (seg : Segment) (events : List Event) : FactorScores :=
  { api_usage := apiUsageScore seg (apiCallCount events)
    login_frequency := loginFrequencyScore (loginCount events)
    payment_timeliness := paymentTimelinessScore (paymentsOf events)
    feature_adoption := featureAdoptionScore (featuresOf events)
    support_tickets := supportTicketsScore (ticketsOf events) }

/-- Modelled from the spec: the full health-score computation — weighted
aggregation of the five factor scores with threshold classification. -/
def computeHealthScore (seg : Segment) (events : List Event) : HealthScore :=
  let f := computeFactors seg events
  { overall_score := overallScore f
    status := classifyStatus (overallScore f)
    factors := f }

/-- Persisted per-customer state: segment, event log, and the appended
history of computed scores. -/
structure Store where
  segment : Segment
  events : List Event
  history : List HealthScore

/-- Modelled from the spec: §3 lifecycle — a health check recomputes the
score from the current events (never from prior scores) and appends the
result to the history. -/
def recompute (s : Store) : HealthScore × Store :=
  let h := computeHealthScore s.segment s.events
  (h, { s with history := s.history ++ [h] })

/-- Outcome of one factor calculation: a score plus a description. -/
structure FactorResult where
  score : ℚ
  description : String
deriving DecidableEq, Repr

/-- Modelled from the spec: §4.6 failure semantics — a missing/errored
factor calculation is degraded to score 0 with a diagnostic description. -/
def degradeFactor (name : String) (r : Except String FactorResult) : FactorResult :=
  match r with
  | Except.ok v => v
  | Except.error msg =>
      { score := 0, description := "Error calculating " ++ name ++ ": " ++ msg }

/-- Modelled from the spec: §4.6 — aggregation over possibly-failed factor
calculations always completes, using the degraded scores. -/
def aggregateResults (api lgn pay feat sup : Except String FactorResult) : HealthScore :=
  let f : FactorScores :=
    { api_usage := (degradeFactor "api_usage" api).score
      login_frequency := (degradeFactor "login_frequency" lgn).score
      payment_timeliness := (degradeFactor "payment_timeliness" pay).score
      feature_adoption := (degradeFactor "feature_adoption" feat).score
      support_tickets := (degradeFactor "support_tickets" sup).score }
  { overall_score := overallScore f
    status := classifyStatus (overallScore f)
    factors := f }

end CustomerHealth

namespace CustomerHealth

/-- C1: Health-status classification is a total function of `overall_score`
that partitions the scores with no overlap or gap: healthy iff `s ≥ 75`,
at_risk iff `50 ≤ s < 75`, critical iff `s < 50`; in particular `75.0` is
healthy and `74.9` is at_risk. -/
theorem classifyStatus_partition (s : ℚ) :
    (classifyStatus s = Status.healthy ↔ 75 ≤ s) ∧
    (classifyStatus s = Status.at_risk ↔ 50 ≤ s ∧ s < 75) ∧
    (classifyStatus s = Status.critical ↔ s < 50) ∧
    classifyStatus 75 = Status.healthy ∧
    classifyStatus (749/10) = Status.at_risk := by
  refine ⟨?_, ?_, ?_, by norm_num [classifyStatus], by norm_num [classifyStatus]⟩ <;>
    · unfold classifyStatus
      split_ifs with h1 h2 <;> simp_all <;> linarith

/-- C9: `calculateTrendDirection` returns `stable` iff `|current − previous| < 2`,
`up` iff `current − previous ≥ 2`, and `down` iff `current − previous ≤ −2`;
the three outcomes are exhaustive and mutually exclusive. -/
theorem calculateTrendDirection_cases (c p : ℚ) :
    (calculateTrendDirection c p = Trend.stable ↔ |c - p| < 2) ∧
    (calculateTrendDirection c p = Trend.up ↔ 2 ≤ c - p) ∧
    (calculateTrendDirection c p = Trend.down ↔ c - p ≤ -2) := by
  simp only [calculateTrendDirection]
  split_ifs with h1 h2
  · have h := abs_lt.mp h1
    exact ⟨iff_of_true rfl h1,
      iff_of_false (by simp) (not_le.mpr h.2),
      iff_of_false (by simp) (not_le.mpr (by linarith))⟩
  · have habs : 2 ≤ |c - p| := not_lt.mp h1
    have hup : 2 ≤ c - p := by rwa [abs_of_pos h2] at habs
    exact ⟨iff_of_false (by simp) h1,
      iff_of_true rfl hup,
      iff_of_false (by simp) (not_le.mpr (by linarith))⟩
  · have h0 : c - p ≤ 0 := not_lt.mp h2
    have habs : 2 ≤ |c - p| := not_lt.mp h1
    have hdown : c - p ≤ -2 := by
      rw [abs_of_nonpos h0] at habs
      linarith
    exact ⟨iff_of_false (by simp) h1,
      iff_of_false (by simp) (not_le.mpr (by linarith)),
      iff_of_true rfl hdown⟩

/-- C10: `getHealthStatusColor` and `formatHealthStatus` are total on arbitrary
status strings: the three known statuses map to their fixed color and label,
and every other string maps to the defaults `#6B7280` and `Unknown`. -/
theorem statusColor_and_format_total (s : String) :
    getHealthStatusColor "healthy" = "#10B981" ∧
    getHealthStatusColor "at_risk" = "#F59E0B" ∧
    getHealthStatusColor "critical" = "#EF4444" ∧
    formatHealthStatus "healthy" = "Healthy" ∧
    formatHealthStatus "at_risk" = "At Risk" ∧
    formatHealthStatus "critical" = "Critical" ∧
    (s ≠ "healthy" → s ≠ "at_risk" → s ≠ "critical" →
      getHealthStatusColor s = "#6B7280" ∧ formatHealthStatus s = "Unknown") := by
  refine ⟨by decide, by decide, by decide, by decide, by decide, by decide,
    fun h1 h2 h3 => ?_⟩
  constructor
  · unfold getHealthStatusColor
    split_ifs <;> simp_all
  · unfold formatHealthStatus
    split_ifs <;> simp_all

/-- Witness for C10: a status string outside the known set gets the defaults. -/
theorem statusColor_and_format_total_witness :
    getHealthStatusColor "paused" = "#6B7280" ∧
    formatHealthStatus "paused" = "Unknown" :=
  (statusColor_and_format_total "paused").2.2.2.2.2.2
    (by decide) (by decide) (by decide)

/-- Helper: rounding to one decimal stays within `[0, 100]`. -/
lemma round1_mem_Icc {x : ℚ} (h0 : 0 ≤ x) (h100 : x ≤ 100) :
    0 ≤ round1 x ∧ round1 x ≤ 100 := by
  have habs := abs_le.mp (abs_sub_round (10 * x))
  have hlow : (0 : ℤ) ≤ round (10 * x) := by
    by_contra hc
    push_neg at hc
    have h1 : round (10 * x) ≤ -1 := by omega
    have h1q : ((round (10 * x) : ℤ) : ℚ) ≤ -1 := by exact_mod_cast h1
    linarith [habs.1]
  have hhigh : round (10 * x) ≤ (1000 : ℤ) := by
    by_contra hc
    push_neg at hc
    have h1 : (1001 : ℤ) ≤ round (10 * x) := by omega
    have h1q : (1001 : ℚ) ≤ ((round (10 * x) : ℤ) : ℚ) := by exact_mod_cast h1
    linarith [habs.2]
  have hlowq : (0 : ℚ) ≤ ((round (10 * x) : ℤ) : ℚ) := by exact_mod_cast hlow
  have hhighq : ((round (10 * x) : ℤ) : ℚ) ≤ 1000 := by exact_mod_cast hhigh
  unfold round1
  constructor <;> linarith

/-- C2: the five documented factor weights sum to exactly 1, and for factor
scores each in `[0, 100]` the aggregator returns the weighted sum rounded to
one decimal, which lies in `[0, 100]`. -/
theorem overallScore_weighted_bounded (f : FactorScores)
    (h1 : 0 ≤ f.api_usage ∧ f.api_usage ≤ 100)
    (h2 : 0 ≤ f.login_frequency ∧ f.login_frequency ≤ 100)
    (h3 : 0 ≤ f.payment_timeliness ∧ f.payment_timeliness ≤ 100)
    (h4 : 0 ≤ f.feature_adoption ∧ f.feature_adoption ≤ 100)
    (h5 : 0 ≤ f.support_tickets ∧ f.support_tickets ≤ 100) :
    wApiUsage + wLoginFrequency + wPaymentTimeliness + wFeatureAdoption +
        wSupportTickets = 1 ∧
    overallScore f = round1 (weightedSum f) ∧
    0 ≤ overallScore f ∧ overallScore f ≤ 100 := by
  have hws0 : 0 ≤ weightedSum f := by
    unfold weightedSum wApiUsage wLoginFrequency wPaymentTimeliness
      wFeatureAdoption wSupportTickets
    nlinarith [h1.1, h2.1, h3.1, h4.1, h5.1]
  have hws100 : weightedSum f ≤ 100 := by
    unfold weightedSum wApiUsage wLoginFrequency wPaymentTimeliness
      wFeatureAdoption wSupportTickets
    nlinarith [h1.2, h2.2, h3.2, h4.2, h5.2]
  have hr := round1_mem_Icc hws0 hws100
  exact ⟨by norm_num [wApiUsage, wLoginFrequency, wPaymentTimeliness,
    wFeatureAdoption, wSupportTickets], rfl, hr.1, hr.2⟩

/-- Witness for C2: a concrete factor-score vector inside the bounds. -/
theorem overallScore_weighted_bounded_witness :
    0 ≤ overallScore ⟨80, 90, 100, 70, 60⟩ ∧
    overallScore ⟨80, 90, 100, 70, 60⟩ ≤ 100 :=
  ⟨(overallScore_weighted_bounded ⟨80, 90, 100, 70, 60⟩ (by norm_num)
      (by norm_num) (by norm_num) (by norm_num) (by norm_num)).2.2.1,
   (overallScore_weighted_bounded ⟨80, 90, 100, 70, 60⟩ (by norm_num)
      (by norm_num) (by norm_num) (by norm_num) (by norm_num)).2.2.2⟩

/-- C3: any `failed` payment event caps the Payment Timeliness score at 50,
regardless of the other payment events in the window. -/
theorem failedPayment_caps (payments : List PaymentEvent)
    (h : ∃ e ∈ payments, e.status = PaymentStatus.failed) :
    paymentTimelinessScore payments ≤ 50 := by
  obtain ⟨e, he, hst⟩ := h
  have hne : payments.isEmpty = false := by
    cases payments
    · simp at he
    · rfl
  have hany : (payments.any fun x => x.status = PaymentStatus.failed) = true :=
    List.any_eq_true.mpr ⟨e, he, by simp [hst]⟩
  simp only [paymentTimelinessScore, hne, hany, Bool.false_eq_true,
    if_false, if_true]
  exact min_le_right _ _

/-- Witness for C3: a concrete history containing one failed payment. -/
theorem failedPayment_caps_witness :
    (∃ e ∈ [PaymentEvent.mk PaymentStatus.paid_on_time 0,
            PaymentEvent.mk PaymentStatus.failed 0],
        e.status = PaymentStatus.failed) ∧
    paymentTimelinessScore
      [PaymentEvent.mk PaymentStatus.paid_on_time 0,
       PaymentEvent.mk PaymentStatus.failed 0] ≤ 50 :=
  ⟨⟨PaymentEvent.mk PaymentStatus.failed 0, by decide, rfl⟩,
   failedPayment_caps _ ⟨PaymentEvent.mk PaymentStatus.failed 0, by decide, rfl⟩⟩

/-- C4: the zero-activity edge cases are asymmetric across factors — with no
events of the relevant type in the window, API Usage scores 0, Login
Frequency scores 0, Support Tickets scores 100, and Payment Timeliness is
neutral-high 100. -/
theorem zeroActivity_asymmetry (seg : Segment) (events : List Event) :
    (apiCallCount events = 0 → (computeFactors seg events).api_usage = 0) ∧
    (loginCount events = 0 → (computeFactors seg events).login_frequency = 0) ∧
    (ticketsOf events = [] → (computeFactors seg events).support_tickets = 100) ∧
    (paymentsOf events = [] → (computeFactors seg events).payment_timeliness = 100) := by
  refine ⟨fun h => ?_, fun h => ?_, fun h => ?_, fun h => ?_⟩ <;>
    simp [computeFactors, apiUsageScore, loginFrequencyScore,
      supportTicketsScore, paymentTimelinessScore, h]

/-- Witness for C4: the empty event window. -/
theorem zeroActivity_asymmetry_witness :
    (computeFactors Segment.startup []).api_usage = 0 ∧
    (computeFactors Segment.startup []).login_frequency = 0 ∧
    (computeFactors Segment.startup []).support_tickets = 100 ∧
    (computeFactors Segment.startup []).payment_timeliness = 100 :=
  ⟨(zeroActivity_asymmetry Segment.startup []).1 rfl,
   (zeroActivity_asymmetry Segment.startup []).2.1 rfl,
   (zeroActivity_asymmetry Segment.startup []).2.2.1 rfl,
   (zeroActivity_asymmetry Segment.startup []).2.2.2 rfl⟩

/-- C5: a missing/errored factor calculation never aborts the aggregation —
the aggregator totally computes an overall score from the degraded factor
scores, and an errored factor contributes score 0 with a diagnostic
description. -/
theorem erroredFactor_degrades
    (api lgn pay feat sup : Except String FactorResult) (msg : String) :
    (aggregateResults api lgn pay feat sup).overall_score =
      overallScore
        { api_usage := (degradeFactor "api_usage" api).score
          login_frequency := (degradeFactor "login_frequency" lgn).score
          payment_timeliness := (degradeFactor "payment_timeliness" pay).score
          feature_adoption := (degradeFactor "feature_adoption" feat).score
          support_tickets := (degradeFactor "support_tickets" sup).score } ∧
    (∀ name : String, (degradeFactor name (Except.error msg)).score = 0 ∧
      (degradeFactor name (Except.error msg)).description =
        "Error calculating " ++ name ++ ": " ++ msg) ∧
    (api = Except.error msg →
      (aggregateResults api lgn pay feat sup).factors.api_usage = 0) ∧
    (lgn = Except.error msg →
      (aggregateResults api lgn pay feat sup).factors.login_frequency = 0) ∧
    (pay = Except.error msg →
      (aggregateResults api lgn pay feat sup).factors.payment_timeliness = 0) ∧
    (feat = Except.error msg →
      (aggregateResults api lgn pay feat sup).factors.feature_adoption = 0) ∧
    (sup = Except.error msg →
      (aggregateResults api lgn pay feat sup).factors.support_tickets = 0) := by
  refine ⟨rfl, fun name => ⟨rfl, rfl⟩, fun h => ?_, fun h => ?_, fun h => ?_,
    fun h => ?_, fun h => ?_⟩ <;>
    subst h <;> rfl

/-- Witness for C5: one errored factor among four successful ones. -/
theorem erroredFactor_degrades_witness :
    (aggregateResults (Except.error "boom") (Except.ok ⟨50, "ok"⟩)
        (Except.ok ⟨50, "ok"⟩) (Except.ok ⟨50, "ok"⟩)
        (Except.ok ⟨50, "ok"⟩)).factors.api_usage = 0 :=
  (erroredFactor_degrades (Except.error "boom") (Except.ok ⟨50, "ok"⟩)
    (Except.ok ⟨50, "ok"⟩) (Except.ok ⟨50, "ok"⟩) (Except.ok ⟨50, "ok"⟩)
    "boom").2.2.1 rfl

/-- C6: health-score computation is idempotent and a pure function of the
stored event set — two consecutive recomputations yield the same overall
score, and the result is independent of the previously stored scores. -/
theorem recompute_idempotent (s : Store) :
    (recompute s).1.overall_score = (recompute (recompute s).2).1.overall_score ∧
    (∀ past1 past2 : List HealthScore,
      (recompute { s with history := past1 }).1 =
        (recompute { s with history := past2 }).1) :=
  ⟨rfl, fun _ _ => rfl⟩

/-- C7: with zero events of any type, the factor scores are the zero-activity
values (0, 0, 100, 0, 100), the overall score is their weighted sum — the
deterministic value 35, which is greater than 0 — and the status is
critical. -/
theorem zeroEvents_overall (seg : Segment) :
    (computeHealthScore seg []).factors =
      { api_usage := 0, login_frequency := 0, payment_timeliness := 100,
        feature_adoption := 0, support_tickets := 100 } ∧
    (computeHealthScore seg []).overall_score =
      round1 (weightedSum
        { api_usage := 0, login_frequency := 0, payment_timeliness := 100,
          feature_adoption := 0, support_tickets := 100 }) ∧
    (computeHealthScore seg []).overall_score = 35 ∧
    0 < (computeHealthScore seg []).overall_score ∧
    (computeHealthScore seg []).status = Status.critical := by
  have hf : computeFactors seg [] =
      { api_usage := 0, login_frequency := 0, payment_timeliness := 100,
        feature_adoption := 0, support_tickets := 100 } := by
    simp [computeFactors, apiUsageScore, loginFrequencyScore,
      supportTicketsScore, paymentTimelinessScore, featureAdoptionScore,
      apiCallCount, loginCount, paymentsOf, featuresOf, ticketsOf]
  have hws : weightedSum
      { api_usage := 0, login_frequency := 0, payment_timeliness := 100,
        feature_adoption := 0, support_tickets := 100 } = 35 := by
    norm_num [weightedSum, wApiUsage, wLoginFrequency, wPaymentTimeliness,
      wFeatureAdoption, wSupportTickets]
  have hr : round1 (35 : ℚ) = 35 := by
    have h350 : (10 : ℚ) * 35 = ((350 : ℤ) : ℚ) := by norm_num
    rw [round1, h350, round_intCast]
    norm_num
  have hov : (computeHealthScore seg []).overall_score = 35 := by
    simp [computeHealthScore, hf, overallScore, hws, hr]
  refine ⟨by simp [computeHealthScore, hf], ?_, hov, by rw [hov]; norm_num, ?_⟩
  · rw [hov, hws, hr]
  · simp [computeHealthScore, hf, overallScore, hws, hr, classifyStatus]
    norm_num [classifyStatus]

/-- C8 counterexample: at score 77 the score-based color maps to the healthy
category while the CSS class maps to at_risk, so the three frontend
classification mappings do not all agree on `[0, 100]`. -/
theorem frontendCategories_counterexample :
    (0 : ℚ) ≤ 77 ∧ (77 : ℚ) ≤ 100 ∧
    colorCategory (getHealthScoreColor 77) = some Status.healthy ∧
    classCategory (getHealthStatusClass 77) = some Status.at_risk ∧
    colorCategory (getHealthScoreColor 77) ≠ classCategory (getHealthStatusClass 77) := by
  have hc : getHealthScoreColor 77 = "#10B981" := by
    unfold getHealthScoreColor
    norm_num
  have hk : getHealthStatusClass 77 = "at-risk" := by
    unfold getHealthStatusClass
    norm_num
  refine ⟨by norm_num, by norm_num, ?_, ?_, ?_⟩
  · rw [hc]; decide
  · rw [hk]; decide
  · rw [hc, hk]; decide

/-- C8 (amended): the three frontend classification mappings — the score
color, the status color of the classified status, and the CSS class — place a
score in the same category exactly when `s < 50`, `60 ≤ s < 75`, or `s ≥ 80`;
they disagree on `[50, 60)` and on `[75, 80)`. -/
theorem frontendCategories_agree_iff (s : ℚ) :
    (colorCategory (getHealthScoreColor s) =
        colorCategory (getHealthStatusColor (statusName (classifyStatus s))) ∧
      colorCategory (getHealthScoreColor s) =
        classCategory (getHealthStatusClass s)) ↔
    (s < 50 ∨ (60 ≤ s ∧ s < 75) ∨ 80 ≤ s) := by
  unfold getHealthScoreColor getHealthStatusClass classifyStatus
  split_ifs <;>
    first
      | (exfalso; linarith)
      | (refine iff_of_true (by decide) ?_
         first
           | exact Or.inl (by linarith)
           | exact Or.inr (Or.inl ⟨by linarith, by linarith⟩)
           | exact Or.inr (Or.inr (by linarith)))
      | (refine iff_of_false (by decide) ?_
         rintro (h | ⟨ha, hb⟩ | h) <;> linarith)

end CustomerHealth
